import Mathlib

/-
Shallow embedding of src/sqlalchemy_query_helper/query_helper.py.

The module builds SQLAlchemy queries from Mongo-style filter clauses, sort
directives and pagination arguments.  The SQLAlchemy engine is an external
collaborator; we embed the query object it hands around as an explicit
accumulator (a model name, the rows of the backing table, and the ordered
list of attached operations), and we embed the predicate expressions the
Python code constructs as a small expression syntax together with a
row-level evaluation function used by the terminal count step.

Python-specific behaviour that the embedding reproduces:
  - dynamic values are a tagged union `PyValue` (None, bool, int, str,
    native date, list, dict);
  - a Python function that can raise is embedded as `Except PyError _`;
  - a variable that can hold None or a record set is `Option RecordSet`;
    calling a method on None raises AttributeError;
  - `params if params else []` replaces both None and the (falsy) empty
    list by `[]`; similarly for the pagination dict;
  - in the `$lte`/`$gte` branches the source writes
      `record_set.filter(col < value | col == value)`
    and Python operator precedence makes `|` bind tighter than the
    comparisons, so the expression parses as the chained comparison
      `col < (value | col) == value`
    which means `(col < (value | col)) and ((value | col) == value)`.
    We embed exactly that expression tree; its row-level semantics gives
    `|` the bitwise-or meaning it has on integers.  (Truthiness of the
    intermediate expression object is engine-specific; evaluating the
    chain as a row-wise conjunction is the reading most favourable to the
    inclusive-comparison contract.)
-/

/-- Dynamic (Python-style) values used for filter values and row cells. -/
inductive PyValue where
  | noneV : PyValue
  | boolV (b : Bool) : PyValue
  | intV (n : Int) : PyValue
  | strV (s : String) : PyValue
  | dateV (s : String) : PyValue
  | listV (xs : List PyValue) : PyValue
  | dictV (kvs : List (String × PyValue)) : PyValue
  deriving Repr

/-- Exceptions the embedded code can raise. -/
inductive PyError where
  | attributeError (attr : String) : PyError
  | keyError (key : String) : PyError
  | typeError (msg : String) : PyError
  | notImplementedError (token : String) : PyError
  deriving Repr, DecidableEq

mutual

/-- Python equality (`==`) on dynamic values, structural on containers. -/
def pyBeq : PyValue → PyValue → Bool
  | .noneV, .noneV => true
  | .boolV a, .boolV b => a == b
  | .intV a, .intV b => a == b
  | .strV a, .strV b => a == b
  | .dateV a, .dateV b => a == b
  | .listV xs, .listV ys => pyBeqList xs ys
  | .dictV xs, .dictV ys => pyBeqKvs xs ys
  | _, _ => false

/-- Elementwise equality of value lists. -/
def pyBeqList : List PyValue → List PyValue → Bool
  | [], [] => true
  | x :: xs, y :: ys => pyBeq x y && pyBeqList xs ys
  | _, _ => false

/-- Entrywise equality of key/value lists. -/
def pyBeqKvs : List (String × PyValue) → List (String × PyValue) → Bool
  | [], [] => true
  | (k1, v1) :: xs, (k2, v2) :: ys => k1 == k2 && pyBeq v1 v2 && pyBeqKvs xs ys
  | _, _ => false

end

/-- Uppercasing used to embed the Python `str.upper()` call (kept as an
explicit map over the characters so that it reduces in the kernel). -/
def strUpper (s : String) : String := String.mk (s.data.map Char.toUpper)

/-- Ordered-dictionary lookup: first binding of the key, if any. -/
def lookupKey (k : String) : List (String × PyValue) → Option PyValue
  | [] => Option.none
  | (k2, v) :: rest => if k2 = k then some v else lookupKey k rest

/-- A filter clause, `query_helper.py` calls it `params`: an ordered
mapping field name → ordered mapping operator token → value. -/
abbrev Clause := List (String × List (String × PyValue))

/-- A database row: ordered mapping column name → cell value. -/
abbrev Row := List (String × PyValue)

/-- Value of a column in a row (a column absent from the row reads as
null). -/
def colVal (row : Row) (f : String) : PyValue := (lookupKey f row).getD .noneV

/-- Value-level expressions occurring inside attached predicates:
literals, columns of the model class, and the `|` combination the
`$lte`/`$gte` branches produce. -/
inductive ValExpr where
  | litE (v : PyValue) : ValExpr
  | colE (f : String) : ValExpr
  | borE (a b : ValExpr) : ValExpr
  deriving Repr

/-- Predicate expressions attached by `record_set.filter(...)`.  `andF`
is the conjunction a Python chained comparison `a < b == c` denotes. -/
inductive FilterExpr where
  | isNullF (f : String) : FilterExpr
  | eqF (a b : ValExpr) : FilterExpr
  | neF (a b : ValExpr) : FilterExpr
  | ltF (a b : ValExpr) : FilterExpr
  | gtF (a b : ValExpr) : FilterExpr
  | inF (a b : ValExpr) : FilterExpr
  | ninF (a b : ValExpr) : FilterExpr
  | andF (a b : FilterExpr) : FilterExpr
  deriving Repr

/-- One operation attached to a record set by the helper module. -/
inductive QueryOp where
  | filterOp (e : FilterExpr) : QueryOp
  | orderByOp (descending : Bool) (f : String) : QueryOp
  | offsetOp (n : Int) : QueryOp
  | limitOp (n : Int) : QueryOp
  deriving Repr

/-- The query accumulator: the embedded `session_obj.query(model_cls)`
object together with every operation attached to it so far. -/
structure RecordSet where
  model : String
  rows : List Row
  ops : List QueryOp
  deriving Repr

/-- Embeds `record_set.filter(e)`. -/
def RecordSet.filter (rs : RecordSet) (e : FilterExpr) : RecordSet :=
  { rs with ops := rs.ops ++ [.filterOp e] }

/-- Embeds `record_set.order_by(order_func(column))`. -/
def RecordSet.order_by (rs : RecordSet) (descending : Bool) (f : String) : RecordSet :=
  { rs with ops := rs.ops ++ [.orderByOp descending f] }

/-- Embeds `record_set.offset(n)`. -/
def RecordSet.offset (rs : RecordSet) (n : Int) : RecordSet :=
  { rs with ops := rs.ops ++ [.offsetOp n] }

/-- Embeds `record_set.limit(n)`. -/
def RecordSet.limit (rs : RecordSet) (n : Int) : RecordSet :=
  { rs with ops := rs.ops ++ [.limitOp n] }

/-- A session: for each model class name, the rows of its table. -/
structure Session where
  tables : String → List Row

/-- Embeds `session_obj.query(model_cls)`: the base record set. -/
def Session.query (s : Session) (model_cls : String) : RecordSet :=
  { model := model_cls, rows := s.tables model_cls, ops := [] }

/-- The pagination dictionary: the three keys `query_helper.py` reads,
each possibly absent. -/
structure PaginationArgs where
  offset : Option Int := Option.none
  limit : Option Int := Option.none
  sort : Option (List (List (String × String))) := Option.none

/-- Embeds `pagination_args if pagination_args else {}`: None is falsy
and replaced by the empty dict; an empty dict is falsy too, and replacing
it by `{}` is the identity, so only the None case needs a branch. -/
def normPagination : Option PaginationArgs → PaginationArgs
  | Option.none => {}
  | some pa => pa

/-- Embeds `params if params else []`: both None and the falsy empty
list become `[]`. -/
def normParams : Option (List Clause) → List Clause
  | Option.none => []
  | some [] => []
  | some l => l

/-- Modelled from the spec: `dateutil.parser.parse`, the external
date-parsing collaborator, turns a date string into a native date value.
We represent the parsed native date opaquely by the `dateV` constructor
applied to the source string; applying the parser to a non-string raises
a TypeError. -/
def parse_date : PyValue → Except PyError PyValue
  | .strV s => .ok (.dateV s)
  | _ => .error (.typeError "parser.parse expects a string")

/-- List comprehension `[parse_date(d) for d in xs]`: parse each element,
propagating the first failure. -/
def parse_date_list : List PyValue → Except PyError (List PyValue)
  | [] => .ok []
  | v :: rest => do
      let d ← parse_date v
      let ds ← parse_date_list rest
      .ok (d :: ds)

/-- Embeds `_convert_if_date` (query_helper.py lines 100-119).  A value
with `items` and `fromkeys` attributes (a dict) is treated as
date-tagged: it is subscripted with `"$date"` (raising KeyError when the
key is missing); if the inner value has `append` and `clear` attributes
(a list) every element is parsed, otherwise the single value is parsed.
Any non-dict value is returned unchanged. -/
def convert_if_date : PyValue → Except PyError PyValue
  | .dictV kvs =>
      match lookupKey "$date" kvs with
      | Option.none => .error (.keyError "$date")
      | some (.listV xs) => do
          let ds ← parse_date_list xs
          .ok (.listV ds)
      | some v => parse_date v
  | v => .ok v

/-- The module-level tuple SUPPORTED_QUERY_OPERATORS
(query_helper.py lines 11-13). -/
def SUPPORTED_QUERY_OPERATORS : List String :=
  ["$ne", "$eq", "$in", "$nin", "$gt", "$gte", "$lt", "$lte"]

/-- Predicate the `$gte` branch builds.  The source writes
`col > value | col == value`; by Python precedence `|` binds tighter
than the comparisons, giving the chained comparison
`col > (value | col) == value`, that is
`(col > (value | col)) and ((value | col) == value)`. -/
def gte_filter_expr (f : String) (v : PyValue) : FilterExpr :=
  .andF (.gtF (.colE f) (.borE (.litE v) (.colE f)))
        (.eqF (.borE (.litE v) (.colE f)) (.litE v))

/-- Predicate the `$lte` branch builds, with the same parse as
`gte_filter_expr`: `(col < (value | col)) and ((value | col) == value)`. -/
def lte_filter_expr (f : String) (v : PyValue) : FilterExpr :=
  .andF (.ltF (.colE f) (.borE (.litE v) (.colE f)))
        (.eqF (.borE (.litE v) (.colE f)) (.litE v))

/-- Calling `.filter(e)` on a possibly-None record set: raises
AttributeError on None. -/
def pyFilter : Option RecordSet → FilterExpr → Except PyError RecordSet
  | Option.none, _ => .error (.attributeError "filter")
  | some r, e => .ok (r.filter e)

/-- Embeds the inner operator loop of `_apply_query_param`
(query_helper.py lines 139-174) for one field.  The result is
`some rs2` when a `return` statement fired with record set `rs2`, and
`none` when the loop ran to completion without returning (the caller
then moves on to the next field).  The value is converted by
`convert_if_date` before the operator dispatch, so a failing conversion
raises even for an unsupported operator.  Every supported operator
returns immediately; an unsupported operator falls through to the next
iteration. -/
def apply_query_param_ops (rs : Option RecordSet) (field : String) :
    List (String × PyValue) → Except PyError (Option RecordSet)
  | [] => Except.ok Option.none
  | (operator, rawValue) :: rest => do
      let operator_value ← convert_if_date rawValue
      if operator = "$eq" then
        match operator_value with
        | PyValue.noneV => (pyFilter rs (.isNullF field)).map some
        | v => (pyFilter rs (.eqF (.colE field) (.litE v))).map some
      else if operator = "$ne" then
        (pyFilter rs (.neF (.colE field) (.litE operator_value))).map some
      else if operator = "$lt" then
        (pyFilter rs (.ltF (.colE field) (.litE operator_value))).map some
      else if operator = "$lte" then
        (pyFilter rs (lte_filter_expr field operator_value)).map some
      else if operator = "$gt" then
        (pyFilter rs (.gtF (.colE field) (.litE operator_value))).map some
      else if operator = "$gte" then
        (pyFilter rs (gte_filter_expr field operator_value)).map some
      else if operator = "$nin" then
        (pyFilter rs (.ninF (.colE field) (.litE operator_value))).map some
      else if operator = "$in" then
        (pyFilter rs (.inF (.colE field) (.litE operator_value))).map some
      else
        apply_query_param_ops rs field rest

/-- Embeds `_apply_query_param` (query_helper.py lines 122-174): loop
over the fields of one clause; the first supported (field, operator)
pair returns the filtered record set, and when no pair returns, the
function falls off the end and returns Python None. -/
def apply_query_param (rs : Option RecordSet) : Clause → Except PyError (Option RecordSet)
  | [] => Except.ok Option.none
  | (field, ops) :: restFields => do
      match ← apply_query_param_ops rs field ops with
      | some r => Except.ok (some r)
      | Option.none => apply_query_param rs restFields

/-- Embeds the body of the inner loop of `_query_sort`
(query_helper.py lines 88-96) for one (field, ordering) pair: pick the
ordering function by the uppercased token, raising NotImplementedError
for any other token; then call `record_set.order_by(...)` (AttributeError
when the record set is None) and DISCARD its result, as the source does
(line 96 assigns nothing), returning the incoming record set. -/
def query_sort_pair (rs : Option RecordSet) (field ordering : String) :
    Except PyError (Option RecordSet) := do
  let descending ←
    if strUpper ordering = "ASC" then Except.ok false
    else if strUpper ordering = "DESC" then Except.ok true
    else Except.error (PyError.notImplementedError ordering)
  match rs with
  | Option.none => Except.error (PyError.attributeError "order_by")
  | some r =>
      let _ := r.order_by descending field
      Except.ok rs

/-- Inner loop of `_query_sort`: all pairs of one sort group. -/
def query_sort_group (rs : Option RecordSet) :
    List (String × String) → Except PyError (Option RecordSet)
  | [] => Except.ok rs
  | (f, o) :: rest => do
      let rs2 ← query_sort_pair rs f o
      query_sort_group rs2 rest

/-- Embeds `_query_sort` (query_helper.py lines 72-97): outer loop over
the sort groups; returns the (never actually extended) record set. -/
def query_sort (rs : Option RecordSet) :
    List (List (String × String)) → Except PyError (Option RecordSet)
  | [] => Except.ok rs
  | g :: rest => do
      let rs2 ← query_sort_group rs g
      query_sort rs2 rest

/-- Embeds `query_limit` (query_helper.py lines 46-69): offset is
attached only when the offset key is strictly positive, then limit only
when the limit key is strictly positive. -/
def query_limit (record_set : Option RecordSet)
    (pagination_args : Option PaginationArgs) : Except PyError (Option RecordSet) := do
  let pa := normPagination pagination_args
  let rs1 ←
    if pa.offset.getD 0 > 0 then
      match record_set with
      | Option.none => Except.error (PyError.attributeError "offset")
      | some r => Except.ok (some (r.offset (pa.offset.getD 0)))
    else Except.ok record_set
  if pa.limit.getD 0 > 0 then
    match rs1 with
    | Option.none => Except.error (PyError.attributeError "limit")
    | some r => Except.ok (some (r.limit (pa.limit.getD 0)))
  else Except.ok rs1

/-- Embeds `query` (query_helper.py lines 16-43): normalize the falsy
defaults, build the base record set, fold the filter clauses through
`_apply_query_param`, apply the sort taken from the pagination dict, and
finish with `query_limit` on the (already normalized) pagination dict. -/
def query (session_obj : Session) (model_cls : String)
    (params : Option (List Clause)) (pagination_args : Option PaginationArgs) :
    Except PyError (Option RecordSet) := do
  let ps := normParams params
  let pa := normPagination pagination_args
  let base : Option RecordSet := some (session_obj.query model_cls)
  let record_set ← List.foldlM (fun r p => apply_query_param r p) base ps
  let record_set ← query_sort record_set (pa.sort.getD [])
  query_limit record_set (some pa)

/-- Bitwise `|` at the level of row values: on integers it is the
twos-complement bitwise or; anything else is a type error. -/
def pyOr : PyValue → PyValue → Option PyValue
  | .intV a, .intV b => some (.intV (Int.lor a b))
  | .boolV a, .boolV b => some (.boolV (a || b))
  | _, _ => Option.none

/-- Strict less-than on row values (comparable scalars only). -/
def pyLt : PyValue → PyValue → Option Bool
  | .intV a, .intV b => some (decide (a < b))
  | .strV a, .strV b => some (decide (a < b))
  | _, _ => Option.none

/-- Strict greater-than on row values (comparable scalars only). -/
def pyGt : PyValue → PyValue → Option Bool
  | .intV a, .intV b => some (decide (a > b))
  | .strV a, .strV b => some (decide (a > b))
  | _, _ => Option.none

/-- SQL equality: a comparison against NULL is never true. -/
def sqlEq : PyValue → PyValue → Option Bool
  | .noneV, _ => some false
  | _, .noneV => some false
  | a, b => some (pyBeq a b)

/-- SQL inequality: a comparison against NULL is never true. -/
def sqlNe : PyValue → PyValue → Option Bool
  | .noneV, _ => some false
  | _, .noneV => some false
  | a, b => some (!pyBeq a b)

/-- Row-level evaluation of a value expression. -/
def evalVal (row : Row) : ValExpr → Option PyValue
  | .litE v => some v
  | .colE f => some (colVal row f)
  | .borE a b => do pyOr (← evalVal row a) (← evalVal row b)

/-- Row-level evaluation of an attached predicate: whether the row
satisfies it (a filter keeps the rows where this is `some true`). -/
def evalFilter (row : Row) : FilterExpr → Option Bool
  | .isNullF f => some (pyBeq (colVal row f) PyValue.noneV)
  | .eqF a b => do sqlEq (← evalVal row a) (← evalVal row b)
  | .neF a b => do sqlNe (← evalVal row a) (← evalVal row b)
  | .ltF a b => do pyLt (← evalVal row a) (← evalVal row b)
  | .gtF a b => do pyGt (← evalVal row a) (← evalVal row b)
  | .andF a b => do
      let x ← evalFilter row a
      if x then evalFilter row b else some false
  | .inF a b => do
      match (← evalVal row a), (← evalVal row b) with
      | x, .listV xs => some (xs.any (fun y => pyBeq x y))
      | _, _ => Option.none
  | .ninF a b => do
      match (← evalVal row a), (← evalVal row b) with
      | x, .listV xs => some (!xs.any (fun y => pyBeq x y))
      | _, _ => Option.none

/-- Effect of one attached operation on the rows the query would
return. -/
def applyOpRows (rows : List Row) : QueryOp → List Row
  | .filterOp e => rows.filter (fun r =>
      match evalFilter r e with
      | some true => true
      | _ => false)
  | .orderByOp _ _ => rows
  | .offsetOp n => rows.drop n.toNat
  | .limitOp n => rows.take n.toNat

/-- Rows an executed record set returns. -/
def execRows (rs : RecordSet) : List Row := rs.ops.foldl applyOpRows rs.rows

/-- Embeds `record_set.count()`: the number of rows the composed query
matches. -/
def execCount (rs : RecordSet) : Nat := (execRows rs).length

/-- Embeds `count` (query_helper.py lines 177-198): build the query with
an empty pagination dict, then take `result.count()` when the result is
truthy (a record set object) and 0 when it is falsy (None). -/
def count (session_obj : Session) (model_cls : String)
    (params : Option (List Clause)) : Except PyError (List (String × PyValue)) := do
  let result ← query session_obj model_cls params (some {})
  let c : Int :=
    match result with
    | Option.none => 0
    | some rs => (execCount rs : Int)
  Except.ok [("count", PyValue.intV c)]

/-- Modelled from the spec: the relational semantics §4.1 assigns to each
supported operator, used only to compare the behaviour of the code
against the contract of the spec.  An unsupported operator constrains
nothing (it is to be ignored). -/
def specOpMatches (op : String) (x v : PyValue) : Bool :=
  if op = "$eq" then
    (match v with
     | .noneV => pyBeq x .noneV
     | _ => pyBeq x v)
  else if op = "$ne" then !pyBeq x v
  else if op = "$lt" then (pyLt x v).getD false
  else if op = "$lte" then (pyLt x v).getD false || pyBeq x v
  else if op = "$gt" then (pyGt x v).getD false
  else if op = "$gte" then (pyGt x v).getD false || pyBeq x v
  else if op = "$in" then
    (match v with
     | .listV xs => xs.any (fun y => pyBeq x y)
     | _ => false)
  else if op = "$nin" then
    (match v with
     | .listV xs => !xs.any (fun y => pyBeq x y)
     | _ => false)
  else true

/-- Modelled from the spec: a row matches a clause when every
(field, operator, value) triple of the clause holds of it. -/
def specClauseMatches (cl : Clause) (row : Row) : Bool :=
  cl.all (fun fo => fo.2.all (fun ov => specOpMatches ov.1 (colVal row fo.1) ov.2))

/-- Fixture row used by the concrete theorems below. -/
def demoRow : Row := [("a", .intV 1), ("b", .intV 3)]

/-- Fixture session whose every table holds the single row `demoRow`. -/
def demoSession : Session := ⟨fun _ => [demoRow]⟩

/-- Base record set of the fixture session. -/
def demoBase : RecordSet := demoSession.query "m"

/-- Fixture clause with two fields, each carrying one supported
operator. -/
def c1Clause : Clause := [("a", [("$eq", .intV 1)]), ("b", [("$eq", .intV 2)])]

/-- Fixture clause whose only operator token is unsupported. -/
def c3Clause : Clause := [("a", [("$bogus", .intV 1)])]

/-- Fixture row sitting exactly on the `$gte` boundary. -/
def gteBoundaryRow : Row := [("age", .intV 5)]

/-- Fixture session for the boundary row. -/
def gteSession : Session := ⟨fun _ => [gteBoundaryRow]⟩

/-- Fixture clause asking for `age $gte 5`. -/
def gteClause : Clause := [("age", [("$gte", .intV 5)])]

/-- Reduction of an Except bind whose first step succeeded. -/
theorem bindOk {α β ε : Type} (a : α) (f : α → Except ε β) :
    (do let x ← Except.ok a; f x) = f a := rfl

/-- Reduction of an Except bind whose first step raised. -/
theorem bindErr {α β ε : Type} (e : ε) (f : α → Except ε β) :
    (do let x ← (Except.error e : Except ε α); f x) = Except.error e := rfl

/-- Parsing a list of string values succeeds elementwise, in order. -/
theorem parse_date_list_map_str (ss : List String) :
    parse_date_list (ss.map PyValue.strV) = Except.ok (ss.map PyValue.dateV) := by
  induction ss with
  | nil => rfl
  | cons s rest ih => simp [parse_date_list, parse_date, ih, bindOk]

/-- C1: the claim states that every clause, every field of the clause and
every operator/value pair under the field contributes exactly one
predicate to the returned accumulator.  The code instead returns from
`_apply_query_param` at the first supported pair: on a single clause
carrying two (field, operator) pairs, the returned accumulator holds one
attached predicate, not two. -/
theorem query_attaches_single_predicate_per_clause :
    query demoSession "m" (some [c1Clause]) Option.none
      = Except.ok (some (RecordSet.mk "m" [demoRow]
          [QueryOp.filterOp (.eqF (.colE "a") (.litE (.intV 1)))]))
  ∧ c1Clause.foldl (fun n fo => n + fo.2.length) 0 = 2 :=
  ⟨rfl, rfl⟩

/-- C2: the claim states that the `$gte` predicate is the logical
disjunction of strict greater-than and equality, so a boundary row
(field value equal to the filter value) satisfies it.  The predicate the
code attaches is `(col > (v | col)) and ((v | col) == v)` by Python
operator precedence; on the boundary row with age 5 against `$gte 5` it
evaluates to false (since `5 | 5 = 5` and `5 > 5` fails), the row is
filtered out and `count` reports 0, while the relational semantics of
the spec matches the row. -/
theorem gte_boundary_row_excluded :
    apply_query_param (some (gteSession.query "m")) gteClause
      = Except.ok (some ((gteSession.query "m").filter (gte_filter_expr "age" (.intV 5))))
  ∧ evalFilter gteBoundaryRow (gte_filter_expr "age" (.intV 5)) = some false
  ∧ count gteSession "m" (some [gteClause]) = Except.ok [("count", PyValue.intV 0)]
  ∧ specClauseMatches gteClause gteBoundaryRow = true :=
  ⟨rfl, rfl, rfl, rfl⟩

/-- C3 counterexample: the claim states that a clause with an
unsupported operator still yields the accumulator (with the predicates
of its supported operators).  On a clause whose only operator is
unsupported, `_apply_query_param` raises no error but falls off the end
and returns None, not the accumulator, and `query` then propagates the
None. -/
theorem unsupported_only_clause_returns_none :
    apply_query_param (some demoBase) c3Clause = Except.ok Option.none
  ∧ query demoSession "m" (some [c3Clause]) Option.none = Except.ok Option.none
  ∧ (Except.ok Option.none : Except PyError (Option RecordSet))
      ≠ Except.ok (some demoBase) :=
  ⟨rfl, rfl, fun h => Option.noConfusion (Except.ok.inj h)⟩

/-- C3 amended: an unsupported operator token is silently skipped (no
predicate, no error), the loop continuing with the remaining pairs of
the field; but a clause all of whose pairs are unsupported makes
`_apply_query_param` return None instead of the accumulator. -/
theorem unsupported_operator_skipped :
    (∀ (rs : Option RecordSet) (f op : String) (v w : PyValue)
        (rest : List (String × PyValue)),
        op ∉ SUPPORTED_QUERY_OPERATORS → convert_if_date v = Except.ok w →
        apply_query_param_ops rs f ((op, v) :: rest) = apply_query_param_ops rs f rest)
  ∧ (∀ (rs : Option RecordSet) (f op : String) (v w : PyValue),
        op ∉ SUPPORTED_QUERY_OPERATORS → convert_if_date v = Except.ok w →
        apply_query_param rs [(f, [(op, v)])] = Except.ok Option.none) := by
  have skip : ∀ (rs : Option RecordSet) (f op : String) (v w : PyValue)
      (rest : List (String × PyValue)),
      op ∉ SUPPORTED_QUERY_OPERATORS → convert_if_date v = Except.ok w →
      apply_query_param_ops rs f ((op, v) :: rest) = apply_query_param_ops rs f rest := by
    intro rs f op v w rest h hconv
    simp only [SUPPORTED_QUERY_OPERATORS, List.mem_cons, List.not_mem_nil, or_false,
      not_or] at h
    obtain ⟨h1, h2, h3, h4, h5, h6, h7, h8⟩ := h
    simp [apply_query_param_ops, hconv, bindOk, h1, h2, h3, h4, h5, h6, h7, h8]
  refine ⟨skip, ?_⟩
  intro rs f op v w h hconv
  have h2 := skip rs f op v w [] h hconv
  simp only [apply_query_param]
  rw [h2]
  simp [apply_query_param_ops, apply_query_param, bindOk]

/-- Witness for the amended C3 statement at a concrete unsupported
operator. -/
theorem unsupported_operator_skipped_witness :
    apply_query_param_ops (some demoBase) "a" [("$bogus", PyValue.intV 1)]
      = apply_query_param_ops (some demoBase) "a" []
  ∧ apply_query_param (some demoBase) [("a", [("$bogus", PyValue.intV 1)])]
      = Except.ok Option.none :=
  ⟨unsupported_operator_skipped.1 (some demoBase) "a" "$bogus" (PyValue.intV 1)
      (PyValue.intV 1) [] (by decide) rfl,
   unsupported_operator_skipped.2 (some demoBase) "a" "$bogus" (PyValue.intV 1)
      (PyValue.intV 1) (by decide) rfl⟩

/-- C4: the claim states that a valid sort directive yields an
accumulator with an order clause attached, so that executing it returns
records in the requested order.  The source computes
`record_set.order_by(...)` but discards the result, so the returned
accumulator is the input accumulator, with no ordering operation
attached: on a fresh base accumulator (empty operation list) the valid
directive `[[("age", "DESC")]]` returns the accumulator unchanged, both
through `_query_sort` and through the top-level `query`. -/
theorem sort_directive_attaches_no_ordering :
    query_sort (some demoBase) [[("age", "DESC")]] = Except.ok (some demoBase)
  ∧ query demoSession "m" Option.none
      (some (PaginationArgs.mk Option.none Option.none (some [[("age", "DESC")]])))
      = Except.ok (some demoBase)
  ∧ demoBase.ops = [] :=
  ⟨rfl, rfl, rfl⟩

/-- C5: an `$eq` pair whose (converted) value is null attaches an
explicit is-null predicate on the field, and an `$eq` pair whose
converted value is non-null attaches the ordinary equality predicate
against that value. -/
theorem eq_operator_null_uses_is_null :
    (∀ (rs : RecordSet) (f : String) (rest : List (String × PyValue)),
        apply_query_param_ops (some rs) f (("$eq", PyValue.noneV) :: rest)
          = Except.ok (some (rs.filter (.isNullF f))))
  ∧ (∀ (rs : RecordSet) (f : String) (v w : PyValue) (rest : List (String × PyValue)),
        convert_if_date v = Except.ok w → w ≠ PyValue.noneV →
        apply_query_param_ops (some rs) f (("$eq", v) :: rest)
          = Except.ok (some (rs.filter (.eqF (.colE f) (.litE w))))) := by
  refine ⟨fun rs f rest => rfl, ?_⟩
  intro rs f v w rest hconv hw
  cases w
  case noneV => exact absurd rfl hw
  all_goals simp [apply_query_param_ops, hconv, bindOk, pyFilter, Except.map]

/-- Witness for C5 at a concrete null and a concrete non-null value. -/
theorem eq_operator_null_uses_is_null_witness :
    apply_query_param_ops (some demoBase) "a" [("$eq", PyValue.noneV)]
      = Except.ok (some (demoBase.filter (.isNullF "a")))
  ∧ apply_query_param_ops (some demoBase) "a" [("$eq", PyValue.intV 7)]
      = Except.ok (some (demoBase.filter (.eqF (.colE "a") (.litE (.intV 7))))) :=
  ⟨eq_operator_null_uses_is_null.1 demoBase "a" [],
   eq_operator_null_uses_is_null.2 demoBase "a" (PyValue.intV 7) (PyValue.intV 7) [] rfl
     (fun h => PyValue.noConfusion h)⟩

/-- C6: the direction token is uppercased before comparison with ASC and
DESC; a token whose uppercasing is neither makes `_query_sort` raise its
NotImplementedError immediately (no accumulator is returned), and a
token whose uppercasing is one of the two is accepted. -/
theorem sort_direction_case_insensitive_or_error :
    (∀ (rs : Option RecordSet) (f dir : String) (restPairs : List (String × String))
        (restGroups : List (List (String × String))),
        strUpper dir ≠ "ASC" → strUpper dir ≠ "DESC" →
        query_sort rs (((f, dir) :: restPairs) :: restGroups)
          = Except.error (PyError.notImplementedError dir))
  ∧ (∀ (rs : RecordSet) (f dir : String),
        strUpper dir = "ASC" ∨ strUpper dir = "DESC" →
        query_sort (some rs) [[(f, dir)]] = Except.ok (some rs)) := by
  constructor
  · intro rs f dir restPairs restGroups hA hD
    simp [query_sort, query_sort_group, query_sort_pair, hA, hD, bindErr]
  · intro rs f dir h
    rcases h with h | h <;>
      simp [query_sort, query_sort_group, query_sort_pair, h, bindOk]

/-- Witness for C6: the invalid token UP fails, the lowercase token desc
is accepted. -/
theorem sort_direction_case_insensitive_or_error_witness :
    query_sort (some demoBase) [[("age", "UP")]]
      = Except.error (PyError.notImplementedError "UP")
  ∧ query_sort (some demoBase) [[("age", "desc")]] = Except.ok (some demoBase) :=
  ⟨sort_direction_case_insensitive_or_error.1 (some demoBase) "age" "UP" [] []
      (by decide) (by decide),
   sort_direction_case_insensitive_or_error.2 demoBase "age" "desc" (Or.inr rfl)⟩

/-- C7: `query_limit` attaches an offset operation exactly when the
offset key is a strictly positive integer and a limit operation exactly
when the limit key is strictly positive (a missing key reads as 0), and
when both apply the offset operation precedes the limit operation in the
accumulator. -/
theorem query_limit_applies_positive_bounds_in_order :
    ∀ (rs : RecordSet) (pa : PaginationArgs),
      query_limit (some rs) (some pa) =
        Except.ok (some (RecordSet.mk rs.model rs.rows (rs.ops
          ++ (if pa.offset.getD 0 > 0 then [QueryOp.offsetOp (pa.offset.getD 0)] else [])
          ++ (if pa.limit.getD 0 > 0 then [QueryOp.limitOp (pa.limit.getD 0)] else [])))) := by
  intro rs pa
  by_cases h1 : pa.offset.getD 0 > 0 <;> by_cases h2 : pa.limit.getD 0 > 0 <;>
    simp [query_limit, normPagination, RecordSet.offset, RecordSet.limit, h1, h2, bindOk]

/-- C8: the claim states that `count` returns the number of records
matching the filter clauses.  Through the early return of
`_apply_query_param`, the second (field, operator) pair of a clause is
dropped: on a one-row table where the row satisfies the first pair but
not the second, `count` reports 1 while no row matches the clause under
the relational semantics of the spec. -/
theorem count_diverges_from_matching_rows :
    count demoSession "m" (some [c1Clause]) = Except.ok [("count", PyValue.intV 1)]
  ∧ ([demoRow].filter (fun r => specClauseMatches c1Clause r)).length = 0 :=
  ⟨rfl, rfl⟩

/-- C9: `_convert_if_date` maps a date-tagged single string to the
parsed native date, maps a date-tagged list of strings to the list of
parsed native dates in the same order, and returns every untagged
(non-dict) value unchanged. -/
theorem convert_if_date_normalizes_tagged_dates :
    (∀ s : String, convert_if_date (.dictV [("$date", .strV s)]) = Except.ok (.dateV s))
  ∧ (∀ ss : List String,
      convert_if_date (.dictV [("$date", .listV (ss.map PyValue.strV))])
        = Except.ok (.listV (ss.map PyValue.dateV)))
  ∧ convert_if_date PyValue.noneV = Except.ok PyValue.noneV
  ∧ (∀ b, convert_if_date (.boolV b) = Except.ok (.boolV b))
  ∧ (∀ n, convert_if_date (.intV n) = Except.ok (.intV n))
  ∧ (∀ s, convert_if_date (.strV s) = Except.ok (.strV s))
  ∧ (∀ s, convert_if_date (.dateV s) = Except.ok (.dateV s))
  ∧ (∀ xs, convert_if_date (.listV xs) = Except.ok (.listV xs)) := by
  refine ⟨fun s => rfl, fun ss => ?_, rfl, fun b => rfl, fun n => rfl, fun s => rfl,
    fun s => rfl, fun xs => rfl⟩
  simp [convert_if_date, lookupKey, parse_date_list_map_str, bindOk]

/-- C10: `query` treats absent filter clauses and pagination directive
exactly as the empty list and the empty directive, and `query_limit`
with an absent directive returns its input unchanged. -/
theorem query_none_args_equals_empty_args :
    (∀ (s : Session) (m : String),
        query s m Option.none Option.none = query s m (some []) (some {}))
  ∧ (∀ rs : Option RecordSet, query_limit rs Option.none = Except.ok rs) :=
  ⟨fun _ _ => rfl, fun _ => rfl⟩
